import Mathlib

/-!
Verification of the ginit CLI (repository-initialization workflow).

Shallow embedding of `src/cli.js` (the canonical CLI-entry variant per the
spec) and `src/lib/files.js`.  External effects (filesystem, GitHub API,
simple-git, prompt answers) are modelled as explicit inputs; the run of a
command is a pure function from those inputs to a structured result
recording the externally visible calls, file writes, final filesystem view
and process exit code.
-/

namespace Ginit

/-- A view of the filesystem as seen through the two `fs` primitives the
code uses: `fs.statSync(p).isDirectory()` (`none` = the call throws, e.g.
ENOENT) and `fs.readdirSync(p)` (`none` = the call throws). -/
structure Fs where
  statIsDir : String → Option Bool
  readdir : String → Option (List String)

/-- JavaScript truthiness of an optional string (`undefined`/missing and
the empty string are falsy). -/
def jsFalsyStr : Option String → Bool
  | none => true
  | some s => s = ""

/-- `files.directoryExists` from `src/lib/files.js`: wraps
`fs.statSync(path).isDirectory()` in try/catch returning `false`. -/
def directoryExists (fs : Fs) (p : String) : Bool :=
  match fs.statIsDir p with
  | some b => b
  | none => false

/-- `files.directoryHasFiles` from `src/lib/files.js`: wraps
`fs.readdirSync(path).length > 0` in try/catch returning `false`. -/
def directoryHasFiles (fs : Fs) (p : String) : Bool :=
  match fs.readdir p with
  | some l => decide (0 < l.length)
  | none => false

/-- `files.getDirectoryFiles` from `src/lib/files.js`:
`fs.readdirSync(path).filter(f => f !== '.git' && f !== '.gitignore')`
with NO try/catch, so a failing `readdirSync` propagates to the caller
(modelled as `Except.error`). -/
def getDirectoryFiles (fs : Fs) (p : String) : Except Unit (List String) :=
  match fs.readdir p with
  | some l => .ok (l.filter fun f => f != ".git" && f != ".gitignore")
  | none => .error ()

/-- `files.getCurrentDirectoryBase`: `path.basename(process.cwd())`.
Both calls are into external libraries that cannot throw; the computed
base name is supplied as an input of the run. -/
def getCurrentDirectoryBase (cwdBase : String) : String := cwdBase

/-- `files.createFile(name, content)` = `fs.writeFileSync(name, content)`
with a relative name: it adds the entry to the current directory's
listing (idempotently) and leaves every other path unchanged. -/
def appendEntry (l : List String) (name : String) : List String :=
  if name ∈ l then l else l ++ [name]

def Fs.createFile (fs : Fs) (name : String) : Fs :=
  { fs with
    readdir := fun p =>
      if p = "." then (fs.readdir p).map (fun l => appendEntry l name)
      else fs.readdir p }

/-- The repository descriptor object passed to `github.repos.create`.
A field that the code never set on the JS object is `none`; GitHub treats
an absent `private` field as a public repository. -/
structure RepoData where
  name : Option String
  description : Option String
  privateFlag : Option Bool
deriving DecidableEq, Repr

/-- The visibility the hosting service gives a descriptor: private only
when the `private` field is present and true. -/
def descriptorVisibility (d : RepoData) : String :=
  if d.privateFlag = some true then "private" else "public"

/-- Outcome of the `github.repos.create` network call. -/
inductive RepoError
  | nameConflict
  | unauthorized
  | other
deriving DecidableEq, Repr

structure RepoResponse where
  ssh_url : String
deriving DecidableEq, Repr

/-- The five simple-git operations issued by `setupRepository`. -/
inductive VcsOp
  | initRepo
  | stageAll
  | commit (msg : String)
  | addRemote (remote url : String)
  | pushTo (remote branch : String)
deriving DecidableEq, Repr

/-- Answers the interactive prompt session returns
(`promptCreateQuestions` and `promptFileQuestions` in `src/cli.js`). -/
structure Answers where
  name : String
  description : Option String
  visibility : String
  wantReadme : Bool
  wantIgnore : Bool

/-- All external inputs of one `runInit` invocation. -/
structure Env where
  prefsToken : Option String
  fs : Fs
  cwdBase : String
  interactive : Bool
  force : Bool
  answers : Answers
  createRepoResult : Except RepoError RepoResponse

/-- Externally visible outcome of one `runInit` invocation. -/
structure RunResult where
  hostAuthCalled : Bool
  sentDescriptor : Option RepoData
  writes : List (String × String)
  vcsCalls : List VcsOp
  fs : Fs
  exitCode : Nat

/-- The fixed `.gitignore` content `src/cli.js` writes when the user
confirms the `.gitignore` question: `defaults.join('\n')` with
`defaults = ['node_modules', '.DS_Store', '*.log']`. -/
def ignoreDefaults : String := "node_modules\n.DS_Store\n*.log"

/-- The interactive section of `runInit` (lines 126-149 of `src/cli.js`):
builds `data` from the prompt answers and writes the scaffold files.
Returns the descriptor, the filesystem after the writes, and the writes
in order.  Non-interactive: `data = {}` and nothing is written. -/
def describeAndScaffold (env : Env) : RepoData × Fs × List (String × String) :=
  if env.interactive then
    let name := env.answers.name
    let d : RepoData :=
      { name := some name
        description := env.answers.description
        privateFlag := some (env.answers.visibility = "private") }
    let fsw :=
      if env.answers.wantReadme then
        (env.fs.createFile "README.md", [("README.md", "# " ++ name)])
      else (env.fs, [])
    let fsw2 :=
      if env.answers.wantIgnore then
        (fsw.1.createFile ".gitignore", fsw.2 ++ [(".gitignore", ignoreDefaults)])
      else fsw
    (d, fsw2.1, fsw2.2)
  else
    ({ name := none, description := none, privateFlag := none }, env.fs, [])

/-- `createRepository(data)` in `src/cli.js`: fill in a default name when
`data.name` is falsy, then call `github.repos.create(data)`. This is the
descriptor actually sent. -/
def fillName (cwdBase : String) (d : RepoData) : RepoData :=
  if jsFalsyStr d.name then { d with name := some (getCurrentDirectoryBase cwdBase) } else d

/-- `setupRepository(url)` in `src/cli.js`: re-checks
`files.directoryHasFiles('.')` on the (possibly scaffolded) directory and
issues the simple-git chain accordingly, returning the status string. -/
def setupRepository (fs : Fs) (url : String) : List VcsOp × String :=
  if directoryHasFiles fs "." then
    ([.initRepo, .stageAll, .commit "Initial commit",
      .addRemote "origin" url, .pushTo "origin" "master"], "with files")
  else
    ([.initRepo, .addRemote "origin" url], "without files")

/-- `runInit(interactive, force)` from `src/cli.js` lines 104-159.
Preflight: token present, no `.git` directory, and (files present or
interactive or force); each failure is `process.exit(1)` before any other
effect.  Then `github.authenticate`, the interactive section, the
`github.repos.create` call, and on success the simple-git chain.  The
catch branch only prints the error, so the process still exits 0. -/
def runInit (env : Env) : RunResult :=
  if jsFalsyStr env.prefsToken then
    { hostAuthCalled := false, sentDescriptor := none, writes := [],
      vcsCalls := [], fs := env.fs, exitCode := 1 }
  else if directoryExists env.fs ".git" then
    { hostAuthCalled := false, sentDescriptor := none, writes := [],
      vcsCalls := [], fs := env.fs, exitCode := 1 }
  else if !directoryHasFiles env.fs "." && !env.interactive && !env.force then
    { hostAuthCalled := false, sentDescriptor := none, writes := [],
      vcsCalls := [], fs := env.fs, exitCode := 1 }
  else
    let dfw := describeAndScaffold env
    let d := fillName env.cwdBase dfw.1
    match env.createRepoResult with
    | .error _ =>
      { hostAuthCalled := true, sentDescriptor := some d, writes := dfw.2.2,
        vcsCalls := [], fs := dfw.2.1, exitCode := 0 }
    | .ok resp =>
      { hostAuthCalled := true, sentDescriptor := some d, writes := dfw.2.2,
        vcsCalls := (setupRepository dfw.2.1 resp.ssh_url).1,
        fs := dfw.2.1, exitCode := 0 }

/-- The disjunction of the three preflight failure conditions of
`runInit` (spec 4.6 PreflightCheck). -/
def preflightFails (env : Env) : Bool :=
  jsFalsyStr env.prefsToken
    || directoryExists env.fs ".git"
    || (!directoryHasFiles env.fs "." && !env.interactive && !env.force)

/-- The persisted `prefs.github` record. -/
structure GithubPrefs where
  token : String
deriving DecidableEq, Repr

/-- The `github.authorization.create` callback's input in `runAuth`
(`src/cli.js` lines 83-101): either an error with an HTTP code, or a
response whose `res.data.token` may be absent or empty (falsy). -/
inductive AuthResult
  | err (code : Nat)
  | ok (token : Option String)
deriving DecidableEq, Repr

/-- `runAuth` from `src/cli.js` lines 74-102, restricted to its effect on
the persisted `prefs.github` record: on an error only messages are
printed; on success the record is overwritten iff `res.data.token` is
truthy. -/
def runAuth (prefs : Option GithubPrefs) (res : AuthResult) : Option GithubPrefs :=
  match res with
  | .err _ => prefs
  | .ok t =>
    match t with
    | some s => if s = "" then prefs else some { token := s }
    | none => prefs

/-- Modelled from the spec: the Credential Store (spec 4.2) is the
external `preferences` package, not code under `src/`.  Its contract:
`load()` returns the stored Session Token if any; `save(token)` persists
it, overwriting any prior value, durable across process restarts (a fresh
process sees the state the previous `save` left). -/
structure CredStore where
  record : Option String
deriving DecidableEq, Repr

def CredStore.save (_s : CredStore) (t : String) : CredStore :=
  { record := some t }

def CredStore.load (s : CredStore) : Option String :=
  s.record

/-- Whether an `Except` result is a success (the call did not throw). -/
def exceptIsOk : Except Unit (List String) → Bool
  | .ok _ => true
  | .error _ => false

/-! ## Concrete fixtures used by witnesses and counterexamples -/

/-- A readable working directory with the given listing, no `.git`
anywhere (stat throws), and every other path unreadable. -/
def fsWith (entries : List String) : Fs :=
  { statIsDir := fun _ => none
    readdir := fun p => if p = "." then some entries else none }

def noAnswers : Answers :=
  { name := "", description := none, visibility := "public",
    wantReadme := false, wantIgnore := false }

/-! ## Helper lemmas -/

theorem directoryHasFiles_createFile (fs : Fs) (n : String)
    (h : directoryHasFiles fs "." = true) :
    directoryHasFiles (fs.createFile n) "." = true := by
  unfold directoryHasFiles Fs.createFile at *
  cases hr : fs.readdir "." with
  | none => rw [hr] at h; simp at h
  | some l =>
    rw [hr] at h
    simp only [if_pos rfl, hr, Option.map_some]
    unfold appendEntry
    by_cases hm : n ∈ l
    · simpa [hm] using h
    · simp [hm]

theorem describeAndScaffold_hasFiles (env : Env)
    (h : directoryHasFiles env.fs "." = true) :
    directoryHasFiles (describeAndScaffold env).2.1 "." = true := by
  unfold describeAndScaffold
  by_cases hi : env.interactive
  · simp only [hi, if_pos]
    by_cases hr : env.answers.wantReadme <;>
      by_cases hg : env.answers.wantIgnore <;>
        simp [hr, hg, directoryHasFiles_createFile, h]
  · simpa [hi] using h

theorem describeAndScaffold_nonInteractive (env : Env)
    (hI : env.interactive = false) :
    describeAndScaffold env =
      ({ name := none, description := none, privateFlag := none }, env.fs, []) := by
  unfold describeAndScaffold
  simp [hI]

/-! ## C2 -/

/-- C2: every `runInit` invocation evaluates the three preflight checks
(stored token present; `.git` absent; files present or interactive or
force) before any side effect; when any of them fails the process exits
with a non-zero code (1) having called neither `github.authenticate` nor
`github.repos.create`, issued no VCS operation, and mutated no file. -/
theorem runInit_preflight_guard (env : Env) (h : preflightFails env = true) :
    (runInit env).exitCode = 1 ∧
    (runInit env).hostAuthCalled = false ∧
    (runInit env).sentDescriptor = none ∧
    (runInit env).vcsCalls = [] ∧
    (runInit env).writes = [] ∧
    (runInit env).fs = env.fs := by
  unfold preflightFails at h
  unfold runInit
  by_cases h1 : jsFalsyStr env.prefsToken
  · simp [h1]
  · by_cases h2 : directoryExists env.fs ".git"
    · simp [h1, h2]
    · have h3 : (!directoryHasFiles env.fs "." && !env.interactive && !env.force) = true := by
        simp only [Bool.or_eq_true] at h
        rcases h with (h | h) | h
        · exact absurd h h1
        · exact absurd h h2
        · exact h
      simp [h1, h2, h3]

def envC2 : Env :=
  { prefsToken := none, fs := fsWith ["app.js"], cwdBase := "myrepo",
    interactive := false, force := false, answers := noAnswers,
    createRepoResult := .error .other }

theorem runInit_preflight_guard_witness :
    preflightFails envC2 = true ∧
    ((runInit envC2).exitCode = 1 ∧
     (runInit envC2).hostAuthCalled = false ∧
     (runInit envC2).sentDescriptor = none ∧
     (runInit envC2).vcsCalls = [] ∧
     (runInit envC2).writes = [] ∧
     (runInit envC2).fs = envC2.fs) :=
  ⟨rfl, runInit_preflight_guard envC2 rfl⟩

/-! ## C4 -/

def envC4 : Env :=
  { prefsToken := some "tok", fs := fsWith ["app.js"], cwdBase := "myrepo",
    interactive := false, force := false, answers := noAnswers,
    createRepoResult := .error .nameConflict }

/-- C4 counterexample: a run whose remote creation fails with
`NameConflict` (an unrecoverable error in a later step) still exits with
code 0, because the catch branch of `runInit` only prints the error; the
claim demands exit code 1 there. -/
theorem runInit_laterError_exit_zero :
    envC4.createRepoResult = .error .nameConflict ∧
    (runInit envC4).exitCode = 0 ∧
    ¬ (runInit envC4).exitCode = 1 :=
  ⟨rfl, rfl, by simp [show (runInit envC4).exitCode = 0 from rfl]⟩

/-- C4 (amended): `runInit` exits 0 on success and 1 on any of the three
precondition failures, but an unrecoverable error in a later step
(remote creation or local wiring) is only printed: the process still
exits 0.  The exit code is 1 exactly when preflight fails. -/
theorem runInit_exitCode (env : Env) :
    (runInit env).exitCode = if preflightFails env then 1 else 0 := by
  unfold runInit preflightFails
  by_cases h1 : jsFalsyStr env.prefsToken
  · simp [h1]
  · by_cases h2 : directoryExists env.fs ".git"
    · simp [h1, h2]
    · by_cases h3 : (!directoryHasFiles env.fs "." && !env.interactive && !env.force)
      · simp [h1, h2, h3]
      · cases hres : env.createRepoResult <;> simp [h1, h2, h3, hres]

/-! ## C1 -/

def envC1cex : Env :=
  { prefsToken := some "tok", fs := fsWith ["app.js"], cwdBase := "myrepo",
    interactive := true, force := false,
    answers := { name := "foo", description := none, visibility := "public",
                 wantReadme := true, wantIgnore := false },
    createRepoResult := .error .nameConflict }

/-- C1 counterexample: an interactive run that requested a README and
whose `createRepository` fails with `NameConflict` leaves `README.md` in
the directory — the file set after the run differs from the file set
before — because `src/cli.js` writes the scaffold files before calling
`github.repos.create` and never removes them.  (The VCS-silence half of
the claim does hold.) -/
theorem runInit_remoteFail_scaffold_remains :
    envC1cex.createRepoResult = .error .nameConflict ∧
    ¬ ((runInit envC1cex).vcsCalls = [] ∧
       (runInit envC1cex).fs.readdir "." = envC1cex.fs.readdir ".") := by
  refine ⟨rfl, fun hc => ?_⟩
  have h2 : (runInit envC1cex).fs.readdir "." = some ["app.js", "README.md"] := rfl
  have h3 : envC1cex.fs.readdir "." = some ["app.js"] := rfl
  rw [h2, h3] at hc
  simp at hc

/-- C1 (amended): when `createRepository` fails, no VCS operation is
invoked; in non-interactive mode the directory's file set is unchanged;
in interactive mode the scaffold files written before the remote call
(README.md / .gitignore, when requested) remain on disk. -/
theorem runInit_remoteFail_noVcs (env : Env) (e : RepoError)
    (h : env.createRepoResult = .error e) :
    (runInit env).vcsCalls = [] ∧
    (env.interactive = false → (runInit env).fs.readdir "." = env.fs.readdir ".") := by
  unfold runInit
  by_cases h1 : jsFalsyStr env.prefsToken
  · simp [h1]
  · by_cases h2 : directoryExists env.fs ".git"
    · simp [h1, h2]
    · by_cases h3 : (!directoryHasFiles env.fs "." && !env.interactive && !env.force)
      · simp [h1, h2, h3]
      · refine ⟨by simp [h1, h2, h3, h], fun hI => ?_⟩
        simp [h1, h2, h3, h, describeAndScaffold_nonInteractive env hI]

def envC1w : Env :=
  { prefsToken := some "tok", fs := fsWith ["app.js"], cwdBase := "myrepo",
    interactive := false, force := false, answers := noAnswers,
    createRepoResult := .error .nameConflict }

theorem runInit_remoteFail_noVcs_witness :
    (runInit envC1w).vcsCalls = [] ∧
    (envC1w.interactive = false → (runInit envC1w).fs.readdir "." = envC1w.fs.readdir ".") :=
  runInit_remoteFail_noVcs envC1w .nameConflict rfl

/-! ## C3 -/

/-- C3: on any run over a non-empty directory whose remote creation
succeeds, the VCS driver is invoked in exactly the sequence `initRepo`,
`stageAll`, `commit "Initial commit"`, `addRemote "origin" cloneUrl`,
`push "origin" "master"` — no other calls, no reordering. -/
theorem runInit_nonEmpty_vcs_sequence (env : Env) (resp : RepoResponse)
    (h1 : jsFalsyStr env.prefsToken = false)
    (h2 : directoryExists env.fs ".git" = false)
    (h3 : directoryHasFiles env.fs "." = true)
    (h4 : env.createRepoResult = .ok resp) :
    (runInit env).vcsCalls =
      [.initRepo, .stageAll, .commit "Initial commit",
       .addRemote "origin" resp.ssh_url, .pushTo "origin" "master"] := by
  unfold runInit
  have h3' : (!directoryHasFiles env.fs "." && !env.interactive && !env.force) = false := by
    simp [h3]
  simp only [h1, h2, h3', Bool.false_eq_true, if_false, h4]
  unfold setupRepository
  simp [describeAndScaffold_hasFiles env h3]

def envC3 : Env :=
  { prefsToken := some "tok", fs := fsWith ["app.js"], cwdBase := "myrepo",
    interactive := false, force := false, answers := noAnswers,
    createRepoResult := .ok { ssh_url := "git@host:user/myrepo.git" } }

theorem runInit_nonEmpty_vcs_sequence_witness :
    (runInit envC3).vcsCalls =
      [.initRepo, .stageAll, .commit "Initial commit",
       .addRemote "origin" "git@host:user/myrepo.git", .pushTo "origin" "master"] :=
  runInit_nonEmpty_vcs_sequence envC3 { ssh_url := "git@host:user/myrepo.git" }
    rfl rfl rfl rfl

/-! ## C8 -/

/-- C8: a run over an empty directory with the force flag
(non-interactive) whose remote creation succeeds issues exactly
`initRepo` then `addRemote "origin" cloneUrl`; `stageAll`, `commit` and
`push` are never invoked. -/
theorem runInit_emptyForce_vcs (env : Env) (resp : RepoResponse)
    (h1 : jsFalsyStr env.prefsToken = false)
    (h2 : directoryExists env.fs ".git" = false)
    (h3 : directoryHasFiles env.fs "." = false)
    (hI : env.interactive = false)
    (hF : env.force = true)
    (h4 : env.createRepoResult = .ok resp) :
    (runInit env).vcsCalls = [.initRepo, .addRemote "origin" resp.ssh_url] := by
  unfold runInit
  have h3' : (!directoryHasFiles env.fs "." && !env.interactive && !env.force) = false := by
    simp [hF]
  simp only [h1, h2, h3', Bool.false_eq_true, if_false, h4]
  unfold setupRepository
  simp [describeAndScaffold_nonInteractive env hI, h3]

def envC8 : Env :=
  { prefsToken := some "tok", fs := fsWith [], cwdBase := "myrepo",
    interactive := false, force := true, answers := noAnswers,
    createRepoResult := .ok { ssh_url := "git@host:user/myrepo.git" } }

theorem runInit_emptyForce_vcs_witness :
    (runInit envC8).vcsCalls = [.initRepo, .addRemote "origin" "git@host:user/myrepo.git"] :=
  runInit_emptyForce_vcs envC8 { ssh_url := "git@host:user/myrepo.git" }
    rfl rfl rfl rfl rfl rfl

/-! ## C7 -/

/-- C7: every non-interactive run that passes preflight sends the
hosting service exactly the descriptor
`{name := defaultRepoName(), description := absent, private := absent}`
— whose visibility is public — and writes no scaffold file. -/
theorem runInit_nonInteractive_descriptor (env : Env)
    (h1 : jsFalsyStr env.prefsToken = false)
    (h2 : directoryExists env.fs ".git" = false)
    (h3 : (directoryHasFiles env.fs "." || env.force) = true)
    (hI : env.interactive = false) :
    (runInit env).sentDescriptor =
      some { name := some (getCurrentDirectoryBase env.cwdBase),
             description := none, privateFlag := none } ∧
    descriptorVisibility
      { name := some (getCurrentDirectoryBase env.cwdBase),
        description := none, privateFlag := none } = "public" ∧
    (runInit env).writes = [] := by
  unfold runInit
  have h3' : (!directoryHasFiles env.fs "." && !env.interactive && !env.force) = false := by
    rcases Bool.or_eq_true _ _ |>.mp h3 with h | h <;> simp [h]
  have hfill : fillName env.cwdBase { name := none, description := none, privateFlag := none }
      = { name := some (getCurrentDirectoryBase env.cwdBase),
          description := none, privateFlag := none } := rfl
  cases hres : env.createRepoResult <;>
    simp [h1, h2, h3', hres, describeAndScaffold_nonInteractive env hI, hfill,
      descriptorVisibility]

def envC7 : Env :=
  { prefsToken := some "tok", fs := fsWith ["app.js"], cwdBase := "myrepo",
    interactive := false, force := false, answers := noAnswers,
    createRepoResult := .ok { ssh_url := "git@host:user/myrepo.git" } }

theorem runInit_nonInteractive_descriptor_witness :
    (runInit envC7).sentDescriptor =
      some { name := some (getCurrentDirectoryBase envC7.cwdBase),
             description := none, privateFlag := none } ∧
    descriptorVisibility
      { name := some (getCurrentDirectoryBase envC7.cwdBase),
        description := none, privateFlag := none } = "public" ∧
    (runInit envC7).writes = [] :=
  runInit_nonInteractive_descriptor envC7 rfl rfl rfl rfl

/-! ## C5 -/

/-- A filesystem view on which every `fs` primitive throws (e.g. the
path does not exist or is unreadable). -/
def unreadableFs : Fs :=
  { statIsDir := fun _ => none, readdir := fun _ => none }

/-- C5 counterexample: `getDirectoryFiles` has no try/catch around
`fs.readdirSync`, so on a non-existent/unreadable path it raises to the
caller instead of returning its declared result type — the inspector
operations are not all total. -/
theorem getDirectoryFiles_raises :
    getDirectoryFiles unreadableFs "." = .error () ∧
    exceptIsOk (getDirectoryFiles unreadableFs ".") = false :=
  ⟨rfl, rfl⟩

/-- C5 (amended): `directoryExists` and `directoryHasFiles` swallow
every filesystem error and return `false` (and `getCurrentDirectoryBase`
is trivially total), but `getDirectoryFiles` propagates a failing
`readdirSync` to its caller. -/
theorem files_totality (fs : Fs) (p : String)
    (hs : fs.statIsDir p = none) (hr : fs.readdir p = none) :
    directoryExists fs p = false ∧
    directoryHasFiles fs p = false ∧
    getDirectoryFiles fs p = .error () := by
  unfold directoryExists directoryHasFiles getDirectoryFiles
  rw [hs, hr]
  exact ⟨rfl, rfl, rfl⟩

theorem files_totality_witness :
    directoryExists unreadableFs "nope" = false ∧
    directoryHasFiles unreadableFs "nope" = false ∧
    getDirectoryFiles unreadableFs "nope" = .error () :=
  files_totality unreadableFs "nope" rfl rfl

/-! ## C6 -/

def envC6cex : Env :=
  { prefsToken := some "tok", fs := fsWith ["app.js"], cwdBase := "myrepo",
    interactive := true, force := false,
    answers := { name := "foo", description := none, visibility := "public",
                 wantReadme := false, wantIgnore := true },
    createRepoResult := .ok { ssh_url := "git@host:user/foo.git" } }

/-- C6 counterexample: on a successful interactive run over a directory
whose ignorable entries are exactly `["app.js"]`, confirming the
`.gitignore` question writes the fixed content
`node_modules\n.DS_Store\n*.log` — which is not empty and is not the
newline-join of any subset of `listIgnorableEntries` (there is no
multi-select in `src/cli.js`). -/
theorem runInit_gitignore_not_selected :
    (runInit envC6cex).writes = [(".gitignore", ignoreDefaults)] ∧
    getDirectoryFiles envC6cex.fs "." = .ok ["app.js"] ∧
    (((["app.js"] : List String).sublists.map
      (String.intercalate "\n")).contains ignoreDefaults) = false ∧
    ignoreDefaults ≠ "" :=
  ⟨rfl, rfl, by decide, by decide⟩

/-- C6 (amended): on every interactive run that passes preflight and
confirms the `.gitignore` question, the created `.gitignore` contains
the fixed default list `node_modules`, `.DS_Store`, `*.log`
(newline-joined), independent of the directory's entries and with no
multi-select over `listIgnorableEntries`. -/
theorem runInit_gitignore_fixed (env : Env)
    (h1 : jsFalsyStr env.prefsToken = false)
    (h2 : directoryExists env.fs ".git" = false)
    (hI : env.interactive = true)
    (hW : env.answers.wantIgnore = true) :
    (".gitignore", ignoreDefaults) ∈ (runInit env).writes := by
  unfold runInit
  have h3' : (!directoryHasFiles env.fs "." && !env.interactive && !env.force) = false := by
    simp [hI]
  have hscaff : (".gitignore", ignoreDefaults) ∈ (describeAndScaffold env).2.2 := by
    unfold describeAndScaffold
    by_cases hr : env.answers.wantReadme <;> simp [hI, hr, hW]
  cases hres : env.createRepoResult <;> simp [h1, h2, h3', hres, hscaff]

def envC6w : Env :=
  { prefsToken := some "tok", fs := fsWith ["app.js"], cwdBase := "myrepo",
    interactive := true, force := false,
    answers := { name := "foo", description := none, visibility := "public",
                 wantReadme := true, wantIgnore := true },
    createRepoResult := .ok { ssh_url := "git@host:user/foo.git" } }

theorem runInit_gitignore_fixed_witness :
    (".gitignore", ignoreDefaults) ∈ (runInit envC6w).writes :=
  runInit_gitignore_fixed envC6w rfl rfl rfl rfl

/-! ## C9 -/

/-- C9: a Session Token saved via the Credential Store and then loaded
(in a fresh process, which sees the state the `save` persisted) equals
the saved value, and `save` overwrites any prior stored token wholesale:
the resulting store does not depend on the previous state. -/
theorem credStore_roundtrip (s s' : CredStore) (t : String) :
    (s.save t).load = some t ∧ s.save t = s'.save t :=
  ⟨rfl, rfl⟩

/-! ## C10 -/

/-- C10: `runAuth` writes the persisted credential record only when the
authorization response carries a (truthy) token; on any authorization
failure — error of any code, or a response without a token — the
previously stored credential is left unchanged. -/
theorem runAuth_preserves_prefs (prefs : Option GithubPrefs) (res : AuthResult)
    (h : ∀ s, res = .ok (some s) → s = "") :
    runAuth prefs res = prefs := by
  cases res with
  | err c => rfl
  | ok t =>
    cases t with
    | none => rfl
    | some s =>
      have hs : s = "" := h s rfl
      simp [runAuth, hs]

theorem runAuth_preserves_prefs_witness :
    runAuth (some { token := "old" }) (.err 401) = some { token := "old" } :=
  runAuth_preserves_prefs (some { token := "old" }) (.err 401)
    (fun _ h => nomatch h)

end Ginit
